import Mathlib

/-!
Shallow embedding of the DIY_topology validator (`TopologyTest.py`).

The geometry kernel (shapely) is an external dependency of the program, so it
is embedded as an abstract record of operations (`Kernel`); operations that the
Python code may observe raising an exception are given the type `Except String`.
The class `TopologyTest` becomes the state record `TT`; methods become
functions on that state, threading the `invalid_intersections` cache
explicitly.  Areas and tolerances are modelled with `Int`.
-/

namespace DIYTopology

/-- JSON scalar values as they appear in feature attributes and rule files.
Python reads missing dict keys with `.get`, which yields `None`; JSON `null`
and Python `None` are the same value, modelled by `JValue.null`. -/
inductive JValue where
  | null
  | str (s : String)
  | num (n : Int)
  | boolean (b : Bool)
deriving DecidableEq, Repr

/-- Feature attributes: a mapping from string keys to scalar values
(unique keys; a Python dict). -/
abbrev Attrs := List (String × JValue)

/-- Python `attrs.get(key)`: `None` (null) when the key is absent. -/
def attrsGet (a : Attrs) (key : String) : JValue :=
  (a.lookup key).getD JValue.null

/-- The geometry-type tag of a shapely geometry.  `geom_type == 'LineString'`
and `isinstance(geom, Polygon)` both test this tag (shapely's `MultiPolygon`
is not a subclass of `Polygon`). -/
inductive GeomType where
  | point
  | lineString
  | polygon
  | multiPolygon
  | multiLineString
  | other
deriving DecidableEq, Repr

/-- The external geometry kernel (shapely) together with the bounding-box
spatial index (`gdf.sindex`).  Operations the Python code can observe raising
are `Except`-valued; predicates and area are total.  `sindex gs g` returns the
indices of candidate features of the collection `gs` whose bounding box
overlaps the bounds of `g` (`sindex.intersection(g.bounds)`). -/
structure Kernel (G : Type) where
  intersects : G → G → Bool
  intersection : G → G → Except String G
  is_valid : G → Bool
  area : G → Int
  overlaps : G → G → Bool
  contains : G → G → Bool
  is_simple : G → Bool
  geomType : G → GeomType
  unary_union : List G → Except String G
  buffer : G → Int → Except String G
  difference : G → G → Except String G
  is_empty : G → Bool
  sindex : List G → G → List Nat

/-- A rule condition `{attribute: ..., values: [...]}`.  The JSON key
`attribute` is a Lean keyword, so the field is named `attr`. -/
structure Condition where
  attr : String
  values : List JValue
deriving DecidableEq, Repr

/-- The per-dataset rule set (`dataset_rules[dataset_type]`). -/
structure RuleSet where
  allow_intersection_if : List Condition
  allow_overlap_if : List Condition
deriving DecidableEq, Repr

/-- The six per-check enable flags (`config['enabled_checks']`); a flag absent
from the config dict defaults to `True` via `.get(name, True)`, so the record
stores the resolved booleans. -/
structure EnabledChecks where
  intersections : Bool
  self_intersections : Bool
  gaps : Bool
  dangles : Bool
  overlaps : Bool
  containment : Bool
deriving DecidableEq, Repr

/-- Configuration settings consumed by the checks.
`min_intersection_area` is read with `.get("min_intersection_area", 0)`,
so an absent key is the recorded value `0`. -/
structure Config where
  enabled_checks : EnabledChecks
  min_intersection_area : Int
deriving DecidableEq, Repr

/-- A loaded feature: `(geom, attributes)` tuple from `_load_geometries`. -/
structure Feature (G : Type) where
  geom : G
  attrs : Attrs
deriving DecidableEq, Repr

/-- An invalid-intersection tuple
`(geometry1, geometry2, intersection_geometry, attributes1, attributes2)`. -/
abbrev InterIssue (G : Type) := G × G × G × Attrs × Attrs

/-- A pairwise issue tuple `(geom1, geom2, attrs1, attrs2)` as produced by
`check_overlaps` and `check_containment`. -/
abbrev PairIssue (G : Type) := G × G × Attrs × Attrs

/-- The state of a `TopologyTest` instance after construction:
`self.config`, `self.rules`, `self.geometries` and the
`self.invalid_intersections` cache (initially `None`). -/
structure TT (G : Type) where
  config : Config
  rules : RuleSet
  geometries : List (Feature G)
  invalid_intersections : Option (List (InterIssue G))

variable {G : Type}

/-- Body of the loop in `_is_valid_intersection`: a single condition is met
when either feature's value for the condition's attribute is among the
allowed values (`attr1.get(attribute) in allowed_values or
attr2.get(attribute) in allowed_values`).  A missing attribute reads as
`null`. -/
def condition_met (c : Condition) (attr1 attr2 : Attrs) : Bool :=
  decide (attrsGet attr1 c.attr ∈ c.values) || decide (attrsGet attr2 c.attr ∈ c.values)

/-- `_is_valid_intersection(self, attr1, attr2)`: with no conditions the
intersection is never valid; otherwise it is valid iff some condition is
met. -/
def is_valid_intersection (rules : RuleSet) (attr1 attr2 : Attrs) : Bool :=
  let conditions := rules.allow_intersection_if
  if conditions.isEmpty then false
  else conditions.any (fun c => condition_met c attr1 attr2)

/-- The pair enumeration of `check_intersections`: for each feature index
`idx`, the spatial-index candidates of its bounds, keeping only
`idx < match.name` (`if idx >= match.name: continue` skips the rest).
These are exactly the ordered pairs on which `intersects` is evaluated. -/
def intersection_pairs_evaluated (K : Kernel G) (geoms : List (Feature G)) :
    List (Nat × Nat) :=
  let gs := geoms.map (·.geom)
  (List.range geoms.length).flatMap (fun i =>
    match geoms.get? i with
    | none => []
    | some fi =>
      ((K.sindex gs fi.geom).filter (fun j => decide (i < j))).map (fun j => (i, j)))

/-- Body of the pair loop in `check_intersections`: test `intersects`, consult
the rule evaluator, compute the intersection geometry inside `try/except`
(an exception or an invalid geometry skips the pair), and keep the tuple when
`inter_geom.area >= min_intersection_area`. -/
def evaluate_intersection_pair (K : Kernel G) (s : TT G) (p : Nat × Nat) :
    Option (InterIssue G) :=
  match s.geometries.get? p.1, s.geometries.get? p.2 with
  | some fi, some fj =>
    if K.intersects fi.geom fj.geom then
      if is_valid_intersection s.rules fi.attrs fj.attrs then none
      else
        match K.intersection fi.geom fj.geom with
        | Except.error _ => none
        | Except.ok inter_geom =>
          if K.is_valid inter_geom = false then none
          else if s.config.min_intersection_area ≤ K.area inter_geom then
            some (fi.geom, fj.geom, inter_geom, fi.attrs, fj.attrs)
          else none
    else none
  | _, _ => none

/-- The uncached computation inside `check_intersections`: evaluate the loop
body on every enumerated pair, collecting the emitted tuples. -/
def compute_invalid_intersections (K : Kernel G) (s : TT G) :
    List (InterIssue G) :=
  (intersection_pairs_evaluated K s.geometries).filterMap
    (evaluate_intersection_pair K s)

/-- `check_intersections(self)`: return the cached list when present,
otherwise compute, store in `self.invalid_intersections` and return. -/
def check_intersections (K : Kernel G) (s : TT G) :
    List (InterIssue G) × TT G :=
  match s.invalid_intersections with
  | some r => (r, s)
  | none =>
    let r := compute_invalid_intersections K s
    (r, { s with invalid_intersections := some r })

/-- `check_self_intersections(self)`: emit every feature whose geometry is not
simple. -/
def check_self_intersections (K : Kernel G) (s : TT G) : List (G × Attrs) :=
  s.geometries.filterMap (fun f =>
    if K.is_simple f.geom then none else some (f.geom, f.attrs))

/-- The polygon list used by `check_gaps`: features whose geometry is an
instance of `Polygon` exactly (shapely's `MultiPolygon` is not). -/
def gap_polygons (K : Kernel G) (s : TT G) : List G :=
  (s.geometries.filter (fun f => decide (K.geomType f.geom = GeomType.polygon))).map (·.geom)

/-- The geometry-engine pipeline of `check_gaps`:
`unary_union`, `buffer(tolerance)`, `difference`. -/
def gap_pipeline (K : Kernel G) (polygons : List G) (tolerance : Int) :
    Except String G := do
  let all_polys ← K.unary_union polygons
  let buffered ← K.buffer all_polys tolerance
  let gaps ← K.difference buffered all_polys
  pure gaps

/-- `check_gaps(self, tolerance=0.0)`: `None` when there are no geometries or
no `Polygon` features; the engine pipeline runs inside `try/except`, any
failure degrading to `None`; an empty gap region is also `None`. -/
def check_gaps (K : Kernel G) (s : TT G) (tolerance : Int) : Option G :=
  if s.geometries.isEmpty then none
  else
    let polygons := gap_polygons K s
    if polygons.isEmpty then none
    else
      match gap_pipeline K polygons tolerance with
      | Except.error _ => none
      | Except.ok gaps => if K.is_empty gaps then none else some gaps

/-- `check_dangles(self)`.  The module imports only `mapping, MultiPolygon,
MultiLineString, Polygon` from `shapely.geometry`, so the name `Point` on the
line `start_point = Point(geom.coords[0])` is unbound: reaching the
`geom_type == 'LineString'` branch raises `NameError`.  The `unary_union`
call before the loop is not inside any `try/except` either. -/
def check_dangles (K : Kernel G) (s : TT G) : Except String (List (G × Attrs)) := do
  let _network ← K.unary_union (s.geometries.map (·.geom))
  s.geometries.foldlM (fun dangles f =>
    if K.geomType f.geom = GeomType.lineString then
      Except.error "NameError: name Point is not defined"
    else
      pure dangles) []

/-- Index pairs `(idx1, idx2)` enumerated by the nested loops
`for idx1, row1 in gdf.iterrows(): for idx2, row2 in gdf.iloc[idx1+1:]...`,
shared by `check_overlaps` and `check_containment`. -/
def pairs_lt (n : Nat) : List (Nat × Nat) :=
  (List.range n).flatMap (fun i => ((List.range n).drop (i + 1)).map (fun j => (i, j)))

/-- Body of the pair loop in `check_overlaps`: when the `overlaps` predicate
holds, compute the intersection area (this `intersection` call is not guarded
by any `try/except`) and emit the tuple when the area strictly exceeds the
tolerance. -/
def overlap_pair (K : Kernel G) (tolerance : Int) (f1 f2 : Feature G) :
    Except String (Option (PairIssue G)) :=
  if K.overlaps f1.geom f2.geom then do
    let inter ← K.intersection f1.geom f2.geom
    if tolerance < K.area inter then
      pure (some (f1.geom, f2.geom, f1.attrs, f2.attrs))
    else pure none
  else pure none

/-- `check_overlaps(self, tolerance=0.0)`: full cross product over pairs
`idx1 < idx2`, no spatial index, no rule evaluator. -/
def check_overlaps (K : Kernel G) (s : TT G) (tolerance : Int) :
    Except String (List (PairIssue G)) :=
  (pairs_lt s.geometries.length).foldlM (fun acc p =>
    match s.geometries.get? p.1, s.geometries.get? p.2 with
    | some f1, some f2 => do
      match ← overlap_pair K tolerance f1 f2 with
      | some issue => pure (acc ++ [issue])
      | none => pure acc
    | _, _ => pure acc) []

/-- `check_containment(self)`: full cross product over pairs `idx1 < idx2`,
testing only `row1['geometry'].contains(row2['geometry'])` — the single
direction earlier-index-contains-later-index. -/
def check_containment (K : Kernel G) (s : TT G) : List (PairIssue G) :=
  (pairs_lt s.geometries.length).filterMap (fun p =>
    match s.geometries.get? p.1, s.geometries.get? p.2 with
    | some f1, some f2 =>
      if K.contains f1.geom f2.geom then some (f1.geom, f2.geom, f1.attrs, f2.attrs)
      else none
    | _, _ => none)

/-- The result mapping of `validate_topology`: a key is present (`some`) when
the corresponding check was enabled and survived the final nonempty filter;
the gaps entry holds the gap geometry rather than a list. -/
structure Results (G : Type) where
  intersections : Option (List (InterIssue G))
  self_intersections : Option (List (G × Attrs))
  gaps : Option G
  dangles : Option (List (G × Attrs))
  overlaps : Option (List (PairIssue G))
  containment : Option (List (PairIssue G))
deriving Repr

/-- The final comprehension of `validate_topology` applied to a list-valued
entry: an empty list is dropped from the result mapping. -/
def keep_nonempty {α : Type} : Option (List α) → Option (List α)
  | some xs => if xs.isEmpty then none else some xs
  | none => none

/-- `validate_topology(self)`: run each enabled check in source order
(`intersections`, `self_intersections`, `gaps`, `dangles`, `overlaps`,
`containment`); the intersection check writes its cache into `self`; `gaps`
is stored only when not `None`; finally empty list results are filtered out.
No check invocation is wrapped in `try/except`, so an exception raised by
`check_dangles` or `check_overlaps` propagates to the caller. -/
def validate_topology (K : Kernel G) (s : TT G) : Except String (Results G) := do
  let ec := s.config.enabled_checks
  let (inter, s1) :=
    if ec.intersections then
      let r := check_intersections K s
      (some r.1, r.2)
    else (none, s)
  let selfi := if ec.self_intersections then some (check_self_intersections K s1) else none
  let gaps := if ec.gaps then check_gaps K s1 0 else none
  let dangles ← if ec.dangles then do
      let d ← check_dangles K s1
      pure (some d)
    else pure none
  let overlaps ← if ec.overlaps then do
      let o ← check_overlaps K s1 0
      pure (some o)
    else pure none
  let containment := if ec.containment then some (check_containment K s1) else none
  pure { intersections := keep_nonempty inter
         self_intersections := keep_nonempty selfi
         gaps := gaps
         dangles := keep_nonempty dangles
         overlaps := keep_nonempty overlaps
         containment := keep_nonempty containment }

/-! ### Concrete test fixtures

A small executable kernel over `G := Nat` (geometries are identifiers; the
kernel tables give each fixture the predicate answers it needs), used to
evaluate the checks on concrete inputs. -/

/-- Configuration with every check enabled (the default config of
`_load_config`, whose `enabled_checks` are all `True`) and
`min_intersection_area = 0`. -/
def cfgAll : Config :=
  { enabled_checks :=
      { intersections := true, self_intersections := true, gaps := true
        dangles := true, overlaps := true, containment := true }
    min_intersection_area := 0 }

/-- A kernel over `Nat` geometries in which every predicate is trivial; the
fixtures below override the fields they exercise. -/
def baseKernel : Kernel Nat :=
  { intersects := fun _ _ => false
    intersection := fun _ _ => Except.error "GEOSException"
    is_valid := fun _ => true
    area := fun _ => 0
    overlaps := fun _ _ => false
    contains := fun _ _ => false
    is_simple := fun _ => true
    geomType := fun _ => GeomType.other
    unary_union := fun _ => Except.ok 999
    buffer := fun g _ => Except.ok g
    difference := fun g _ => Except.ok g
    is_empty := fun _ => false
    sindex := fun _ _ => [] }

/-- Kernel for the dangle fixtures: every geometry is a `LineString`. -/
def lineKernel : Kernel Nat :=
  { baseKernel with geomType := fun _ => GeomType.lineString }

/-- A single isolated `LineString` feature loaded into a fresh instance. -/
def lineState : TT Nat :=
  { config := cfgAll
    rules := { allow_intersection_if := [], allow_overlap_if := [] }
    geometries := [{ geom := 0, attrs := [("id", JValue.num 1)] }]
    invalid_intersections := none }

/-- Kernel for the gap-failure fixture: the features are `Polygon`s, the
union succeeds, but `buffer` raises a geometry-engine error. -/
def gapFailKernel : Kernel Nat :=
  { baseKernel with
    geomType := fun _ => GeomType.polygon
    buffer := fun _ _ => Except.error "GEOSException: buffer failed" }

/-- One polygon feature loaded into a fresh instance. -/
def polyState : TT Nat :=
  { config := cfgAll
    rules := { allow_intersection_if := [], allow_overlap_if := [] }
    geometries := [{ geom := 7, attrs := [] }]
    invalid_intersections := none }

/-- Kernel for the containment fixture: geometry `1` contains geometry `0`
and no other containment holds. -/
def containKernel : Kernel Nat :=
  { baseKernel with contains := fun a b => decide (a = 1 ∧ b = 0) }

/-- Two features listed so that the later one (`1`) contains the earlier
one (`0`). -/
def containState : TT Nat :=
  { config := cfgAll
    rules := { allow_intersection_if := [], allow_overlap_if := [] }
    geometries := [{ geom := 0, attrs := [] }, { geom := 1, attrs := [] }]
    invalid_intersections := none }

/-- Kernel for the empty-rules intersection fixture: the two geometries
intersect, their intersection is geometry `5`, valid, of area `0`; the
spatial index returns both indices for every query. -/
def interKernel : Kernel Nat :=
  { baseKernel with
    intersects := fun _ _ => true
    intersection := fun _ _ => Except.ok 5
    sindex := fun _ _ => [0, 1] }

/-- Two intersecting features with an empty rule set and a cold cache. -/
def interState : TT Nat :=
  { config := cfgAll
    rules := { allow_intersection_if := [], allow_overlap_if := [] }
    geometries := [{ geom := 10, attrs := [] }, { geom := 20, attrs := [] }]
    invalid_intersections := none }

/-- A state identical to `interState` except for `allow_overlap_if`. -/
def interStateOv : TT Nat :=
  { interState with
    rules := { allow_intersection_if := []
               allow_overlap_if := [{ attr := "type", values := [JValue.str "bridge"] }] } }

/-- Kernel for the all-multipolygon gap fixture: every geometry is a
`MultiPolygon`, never a `Polygon` instance. -/
def multiPolyKernel : Kernel Nat :=
  { baseKernel with geomType := fun _ => GeomType.multiPolygon }

/-- Two `MultiPolygon` features forming a mosaic. -/
def multiPolyState : TT Nat :=
  { config := cfgAll
    rules := { allow_intersection_if := [], allow_overlap_if := [] }
    geometries := [{ geom := 1, attrs := [] }, { geom := 2, attrs := [] }]
    invalid_intersections := none }

/-- A rule condition whose allowed values contain JSON `null`. -/
def nullCond : Condition := { attr := "type", values := [JValue.null] }

/-- A rule condition allowing the string value `x` for attribute `t`. -/
def strCond : Condition := { attr := "t", values := [JValue.str "x"] }

/-- A rule set whose only intersection condition is `nullCond`. -/
def nullRules : RuleSet := { allow_intersection_if := [nullCond], allow_overlap_if := [] }

/-! ### Helper lemmas -/

theorem mem_range_drop {n m j : Nat} : j ∈ (List.range n).drop m ↔ m ≤ j ∧ j < n := by
  constructor
  · intro h
    obtain ⟨t, ht, rfl⟩ := List.mem_iff_getElem.mp h
    rw [List.length_drop, List.length_range] at ht
    simp [List.getElem_drop, List.getElem_range]
    omega
  · intro ⟨h1, h2⟩
    apply List.mem_iff_getElem.mpr
    refine ⟨j - m, ?_, ?_⟩
    · simp [List.length_drop, List.length_range]; omega
    · simp [List.getElem_drop, List.getElem_range]; omega

theorem mem_pairs_lt {n i j : Nat} : (i, j) ∈ pairs_lt n ↔ i < j ∧ j < n := by
  unfold pairs_lt
  simp only [List.mem_flatMap, List.mem_map, List.mem_range]
  constructor
  · rintro ⟨a, _, b, hb, heq⟩
    obtain ⟨rfl, rfl⟩ : a = i ∧ b = j := by
      exact ⟨congrArg Prod.fst heq, congrArg Prod.snd heq⟩
    obtain ⟨h1, h2⟩ := mem_range_drop.mp hb
    exact ⟨by omega, h2⟩
  · intro ⟨h1, h2⟩
    exact ⟨i, by omega, j, mem_range_drop.mpr ⟨by omega, h2⟩, rfl⟩

theorem check_intersections_geometries (K : Kernel G) (s : TT G) :
    (check_intersections K s).2.geometries = s.geometries := by
  cases h : s.invalid_intersections <;> simp [check_intersections, h]

theorem check_dangles_eq_of_geom (K : Kernel G) {s₁ s₂ : TT G}
    (h : s₁.geometries = s₂.geometries) :
    check_dangles K s₁ = check_dangles K s₂ := by
  unfold check_dangles; rw [h]

theorem check_overlaps_eq_of_geom (K : Kernel G) {s₁ s₂ : TT G} (tol : Int)
    (h : s₁.geometries = s₂.geometries) :
    check_overlaps K s₁ tol = check_overlaps K s₂ tol := by
  unfold check_overlaps; rw [h]

/-! ### Claim theorems -/

/-- C5: calling the intersection check a second time within one run (without
reloading geometries) returns the identical cached result sequence, and the
instance state is unchanged by the second call. -/
theorem check_intersections_idempotent (K : Kernel G) (s : TT G) :
    (check_intersections K (check_intersections K s).2).1 = (check_intersections K s).1 ∧
    (check_intersections K (check_intersections K s).2).2 = (check_intersections K s).2 := by
  cases h : s.invalid_intersections <;> simp [check_intersections, h]

/-- C6: the overlap check never consults `allow_overlap_if`: two instances
that agree on geometries, config and `allow_intersection_if` — but may have
arbitrarily different `allow_overlap_if` condition lists — produce identical
`check_overlaps` results. -/
theorem check_overlaps_ignores_allow_overlap_if (K : Kernel G) (s₁ s₂ : TT G) (tol : Int)
    (hg : s₁.geometries = s₂.geometries) (_hc : s₁.config = s₂.config)
    (_hi : s₁.rules.allow_intersection_if = s₂.rules.allow_intersection_if) :
    check_overlaps K s₁ tol = check_overlaps K s₂ tol := by
  unfold check_overlaps; rw [hg]

/-- Witness for C6: two concrete states differing exactly in
`allow_overlap_if` yield the same overlap result. -/
theorem check_overlaps_ignores_allow_overlap_if_witness :
    interState.rules.allow_overlap_if ≠ interStateOv.rules.allow_overlap_if ∧
    check_overlaps interKernel interState 0 = check_overlaps interKernel interStateOv 0 :=
  ⟨by decide,
   check_overlaps_ignores_allow_overlap_if interKernel interState interStateOv 0 rfl rfl rfl⟩

/-- C9 (code bug): on a collection containing a `LineString`, `check_dangles`
raises `NameError` — the module does not import `Point` — instead of testing
the feature's endpoints against the rest of the network. -/
theorem check_dangles_raises_name_error :
    check_dangles lineKernel lineState =
      Except.error "NameError: name Point is not defined" := rfl

/-- Counterexample to C2: with every check enabled, the `NameError` raised by
`check_dangles` on a single-`LineString` collection propagates out of
`validate_topology`, aborting the whole run instead of being confined to the
dangle check. -/
theorem validate_topology_aborts_on_dangle_error :
    validate_topology lineKernel lineState =
      Except.error "NameError: name Point is not defined" := rfl

/-- Counterexample to C1: geometry `1` (listed second) contains geometry `0`
(listed first), a true directional containment, yet `check_containment`
reports no issue — only the direction earlier-index-contains-later-index is
ever tested. -/
theorem check_containment_misses_reverse_direction :
    containKernel.contains 1 0 = true ∧
    containState.geometries.map (·.geom) = [0, 1] ∧
    check_containment containKernel containState = [] := ⟨rfl, rfl, rfl⟩

/-- C10: the gap check's union input is exactly the features whose geometry
is a `Polygon` instance; a collection with no `Polygon` feature (e.g. all
`MultiPolygon`s) contributes nothing and always yields "no gaps", for every
kernel behaviour. -/
theorem check_gaps_excludes_non_polygon (K : Kernel G) (s : TT G) (tol : Int)
    (h : ∀ f ∈ s.geometries, K.geomType f.geom ≠ GeomType.polygon) :
    gap_polygons K s = [] ∧ check_gaps K s tol = none := by
  have hp : gap_polygons K s = [] := by
    unfold gap_polygons
    have : s.geometries.filter (fun f => decide (K.geomType f.geom = GeomType.polygon)) = [] := by
      rw [List.filter_eq_nil_iff]
      intro f hf
      simpa using h f hf
    rw [this, List.map_nil]
  refine ⟨hp, ?_⟩
  unfold check_gaps
  by_cases hg : s.geometries.isEmpty
  · simp [hg]
  · simp [hg, hp]

/-- Witness for C10: a mosaic of two `MultiPolygon` features yields
"no gaps". -/
theorem check_gaps_excludes_non_polygon_witness :
    check_gaps multiPolyKernel multiPolyState 0 = none :=
  (check_gaps_excludes_non_polygon multiPolyKernel multiPolyState 0 (by decide)).2

/-- Counterexample to C7: with a condition whose allowed values contain JSON
`null`, two features both lacking the attribute satisfy the condition — the
missing attribute is read as `null` by `attrs.get` — so the rule evaluator
exempts the pair even though no attribute value is actually present. -/
theorem condition_met_null_matches_missing :
    condition_met nullCond [] [] = true ∧
    ([] : Attrs).lookup nullCond.attr = none ∧
    is_valid_intersection nullRules [] [] = true := by decide

/-- C7 (amended): when the condition's allowed values do not contain `null`,
a condition is met exactly when one of the two features actually carries a
matching value for the attribute (a missing attribute never matches, and is
never an error); when the allowed values do contain `null`, a feature lacking
the attribute satisfies the condition. -/
theorem condition_met_missing_attribute (c : Condition) (a1 a2 : Attrs) :
    (JValue.null ∉ c.values →
      (condition_met c a1 a2 = true ↔
        (∃ v, a1.lookup c.attr = some v ∧ v ∈ c.values) ∨
        (∃ v, a2.lookup c.attr = some v ∧ v ∈ c.values))) ∧
    (JValue.null ∈ c.values → a1.lookup c.attr = none → condition_met c a1 a2 = true) := by
  unfold condition_met attrsGet
  constructor
  · intro hnull
    cases h1 : a1.lookup c.attr <;> cases h2 : a2.lookup c.attr <;> simp_all
  · intro hmem h1
    rw [h1]
    simp [hmem]

/-- Witness for C7 (amended): a present matching value satisfies a
null-free condition, and a missing attribute satisfies a condition allowing
`null`. -/
theorem condition_met_missing_attribute_witness :
    condition_met strCond [("t", JValue.str "x")] [] = true ∧
    condition_met nullCond [] [] = true :=
  ⟨((condition_met_missing_attribute strCond [("t", JValue.str "x")] []).1 (by decide)).mpr
      (Or.inl ⟨JValue.str "x", rfl, by decide⟩),
   (condition_met_missing_attribute nullCond [] []).2 (by decide) rfl⟩

/-- C8: the gap check never raises (it is total) and yields "no gaps"
(`none`) exactly when there is no `Polygon` feature to union (including an
empty collection), the engine pipeline (`unary_union`/`buffer`/`difference`)
fails, or the computed gap region is empty. -/
theorem check_gaps_none_iff (K : Kernel G) (s : TT G) (tol : Int) :
    check_gaps K s tol = none ↔
      gap_polygons K s = [] ∨
      (∃ e, gap_pipeline K (gap_polygons K s) tol = Except.error e) ∨
      (∃ g, gap_pipeline K (gap_polygons K s) tol = Except.ok g ∧ K.is_empty g = true) := by
  unfold check_gaps
  by_cases hg : s.geometries.isEmpty
  · have hge : s.geometries = [] := List.isEmpty_iff.mp hg
    simp [hg, gap_polygons, hge]
  · by_cases hp : (gap_polygons K s).isEmpty
    · have hpe : gap_polygons K s = [] := List.isEmpty_iff.mp hp
      simp [hg, hp, hpe]
    · have hpe : ¬gap_polygons K s = [] := by simpa [List.isEmpty_iff] using hp
      cases hpl : gap_pipeline K (gap_polygons K s) tol with
      | error e => simp [hg, hp, hpl, hpe]
      | ok g =>
        cases he : K.is_empty g <;> simp [hg, hp, hpl, hpe, he]

/-- C1 (amended): the containment check tests only the direction
earlier-index-contains-later-index: its result contains an issue exactly for
the pairs `i < j` with `geometry i contains geometry j`; a later-listed
feature containing an earlier-listed one is never reported. -/
theorem check_containment_mem (K : Kernel G) (s : TT G) (x : PairIssue G) :
    x ∈ check_containment K s ↔
      ∃ i j fi fj, i < j ∧
        s.geometries.get? i = some fi ∧ s.geometries.get? j = some fj ∧
        K.contains fi.geom fj.geom = true ∧
        x = (fi.geom, fj.geom, fi.attrs, fj.attrs) := by
  unfold check_containment
  rw [List.mem_filterMap]
  constructor
  · rintro ⟨⟨i, j⟩, hp, hx⟩
    obtain ⟨hij, hjn⟩ := mem_pairs_lt.mp hp
    cases hgi : s.geometries.get? i with
    | none => rw [hgi] at hx; cases hx
    | some fi =>
      cases hgj : s.geometries.get? j with
      | none => rw [hgi, hgj] at hx; cases hx
      | some fj =>
        simp only [hgi, hgj] at hx
        cases hc : K.contains fi.geom fj.geom with
        | false => simp [hc] at hx
        | true =>
          simp [hc] at hx
          exact ⟨i, j, fi, fj, hij, hgi, hgj, hc, hx.symm⟩
  · rintro ⟨i, j, fi, fj, hij, hgi, hgj, hc, rfl⟩
    refine ⟨(i, j), mem_pairs_lt.mpr ⟨hij, (List.get?_eq_some.mp hgj).1⟩, ?_⟩
    simp only [hgi, hgj]
    simp [hc]

/-- C4: the pair enumeration of the intersection check visits only ordered
pairs `i < j`: no self-comparison, never both orderings of a pair, and —
given that the spatial index returns duplicate-free candidate lists — each
ordered pair is evaluated at most once (the enumeration is duplicate-free). -/
theorem intersection_pairs_dedup (K : Kernel G) (geoms : List (Feature G)) :
    (∀ p ∈ intersection_pairs_evaluated K geoms, p.1 < p.2) ∧
    (∀ i j : Nat, (i, j) ∈ intersection_pairs_evaluated K geoms →
      (j, i) ∉ intersection_pairs_evaluated K geoms) ∧
    (∀ i : Nat, (i, i) ∉ intersection_pairs_evaluated K geoms) ∧
    ((∀ g, (K.sindex (geoms.map (·.geom)) g).Nodup) →
      (intersection_pairs_evaluated K geoms).Nodup) := by
  have hord : ∀ p ∈ intersection_pairs_evaluated K geoms, p.1 < p.2 := by
    intro p hp
    unfold intersection_pairs_evaluated at hp
    obtain ⟨i, _, hmem⟩ := List.mem_flatMap.mp hp
    cases hgi : geoms.get? i with
    | none => rw [hgi] at hmem; cases hmem
    | some fi =>
      rw [hgi] at hmem
      obtain ⟨j, hj, rfl⟩ := List.mem_map.mp hmem
      have := (List.mem_filter.mp hj).2
      simpa using this
  refine ⟨hord, ?_, ?_, ?_⟩
  · intro i j hij hji
    have h1 := hord _ hij
    have h2 := hord _ hji
    simp at h1 h2
    omega
  · intro i hii
    have := hord _ hii
    simp at this
  · intro hnd
    unfold intersection_pairs_evaluated
    rw [List.nodup_flatMap]
    have key : ∀ (c : Nat) (y : Nat × Nat),
        y ∈ (match geoms.get? c with
          | none => ([] : List (Nat × Nat))
          | some fi => ((K.sindex (geoms.map (fun f : Feature G => f.geom)) fi.geom).filter
              (fun j => decide (c < j))).map (fun j => (c, j))) → y.1 = c := by
      intro c y hy
      cases hgc : geoms.get? c with
      | none => rw [hgc] at hy; cases hy
      | some fc =>
        rw [hgc] at hy
        obtain ⟨j, _, rfl⟩ := List.mem_map.mp hy
        rfl
    constructor
    · intro i _
      cases hgi : geoms.get? i with
      | none => simp
      | some fi =>
        apply List.Nodup.map
        · intro a b hab
          injection hab
        · exact (hnd fi.geom).filter _
    · have hpw : List.Pairwise (· < ·) (List.range geoms.length) :=
        List.pairwise_lt_range _
      apply hpw.imp
      intro a b hab x hxa hxb
      have ha := key a x hxa
      have hb := key b x hxb
      omega

/-- Witness for C4: on the concrete two-feature fixture the enumeration is
exactly the single pair `(0, 1)` and is duplicate-free. -/
theorem intersection_pairs_dedup_witness :
    intersection_pairs_evaluated interKernel interState.geometries = [(0, 1)] ∧
    (intersection_pairs_evaluated interKernel interState.geometries).Nodup := by
  constructor
  · decide
  · apply (intersection_pairs_dedup interKernel interState.geometries).2.2.2
    intro g
    show ([0, 1] : List Nat).Nodup
    decide

/-- C3: with an empty `allow_intersection_if` condition list the rule
evaluator returns false for every attribute pair, so no intersection is
exempted: every enumerated pair that intersects, whose intersection geometry
is computed successfully, is valid and reaches the area threshold, is
emitted as an issue. -/
theorem empty_rules_flags_all (K : Kernel G) (s : TT G)
    (hr : s.rules.allow_intersection_if = []) :
    (∀ a1 a2, is_valid_intersection s.rules a1 a2 = false) ∧
    (∀ (i j : Nat) (fi fj : Feature G) (gInt : G),
      s.invalid_intersections = none →
      s.geometries.get? i = some fi →
      s.geometries.get? j = some fj →
      i < j →
      j ∈ K.sindex (s.geometries.map (fun f => f.geom)) fi.geom →
      K.intersects fi.geom fj.geom = true →
      K.intersection fi.geom fj.geom = Except.ok gInt →
      K.is_valid gInt = true →
      s.config.min_intersection_area ≤ K.area gInt →
      (fi.geom, fj.geom, gInt, fi.attrs, fj.attrs) ∈ (check_intersections K s).1) := by
  have hval : ∀ a1 a2, is_valid_intersection s.rules a1 a2 = false := by
    intro a1 a2
    unfold is_valid_intersection
    rw [hr]
    rfl
  refine ⟨hval, ?_⟩
  intro i j fi fj gInt hcache hgi hgj hij hsj hint hok hvalid harea
  have hpair : (i, j) ∈ intersection_pairs_evaluated K s.geometries := by
    unfold intersection_pairs_evaluated
    apply List.mem_flatMap.mpr
    refine ⟨i, List.mem_range.mpr (List.get?_eq_some.mp hgi).1, ?_⟩
    rw [hgi]
    apply List.mem_map.mpr
    exact ⟨j, List.mem_filter.mpr ⟨hsj, by simpa using hij⟩, rfl⟩
  have hbody : evaluate_intersection_pair K s (i, j) =
      some (fi.geom, fj.geom, gInt, fi.attrs, fj.attrs) := by
    unfold evaluate_intersection_pair
    simp only [hgi, hgj]
    simp [hint, hval, hok, hvalid, harea]
  have hcomp : (check_intersections K s).1 = compute_invalid_intersections K s := by
    simp [check_intersections, hcache]
  rw [hcomp]
  unfold compute_invalid_intersections
  exact List.mem_filterMap.mpr ⟨(i, j), hpair, hbody⟩

/-- Witness for C3: with the empty rule set, the concrete intersecting pair
of `interState` is flagged. -/
theorem empty_rules_flags_all_witness :
    ((10 : Nat), (20 : Nat), (5 : Nat), ([] : Attrs), ([] : Attrs)) ∈
      (check_intersections interKernel interState).1 :=
  (empty_rules_flags_all interKernel interState rfl).2 0 1
    { geom := 10, attrs := [] } { geom := 20, attrs := [] } 5
    rfl rfl rfl (by decide) (by decide) rfl rfl rfl (by decide)

/-- C2 (amended): failure confinement holds only for the gap check (whose
errors are swallowed inside `check_gaps`) and per-pair inside the
intersection check: whenever the two unguarded fallible checks
(`check_dangles`, `check_overlaps`) succeed or are disabled,
`validate_topology` returns a result mapping even if the gap pipeline fails;
but, as the counterexample shows, a failure in an unguarded check propagates
to the caller and aborts the whole run. -/
theorem validate_topology_ok_of_fallible_checks_ok (K : Kernel G) (s : TT G)
    (hd : s.config.enabled_checks.dangles = true → ∃ d, check_dangles K s = Except.ok d)
    (ho : s.config.enabled_checks.overlaps = true → ∃ o, check_overlaps K s 0 = Except.ok o) :
    ∃ r, validate_topology K s = Except.ok r := by
  have hgeqd : check_dangles K (check_intersections K s).2 = check_dangles K s :=
    check_dangles_eq_of_geom K (check_intersections_geometries K s)
  have hgeqo : check_overlaps K (check_intersections K s).2 0 = check_overlaps K s 0 :=
    check_overlaps_eq_of_geom K 0 (check_intersections_geometries K s)
  unfold validate_topology
  cases hci : s.config.enabled_checks.intersections <;>
    cases hcd : s.config.enabled_checks.dangles <;>
      cases hco : s.config.enabled_checks.overlaps <;>
        simp only [hci, hcd, hco, Bool.false_eq_true, if_true, if_false, hgeqd, hgeqo]
  case false.false.false =>
    exact ⟨_, rfl⟩
  case false.false.true =>
    obtain ⟨o, hok⟩ := ho hco
    rw [hok]
    exact ⟨_, rfl⟩
  case false.true.false =>
    obtain ⟨d, hdk⟩ := hd hcd
    rw [hdk]
    exact ⟨_, rfl⟩
  case false.true.true =>
    obtain ⟨d, hdk⟩ := hd hcd
    obtain ⟨o, hok⟩ := ho hco
    rw [hdk, hok]
    exact ⟨_, rfl⟩
  case true.false.false =>
    exact ⟨_, rfl⟩
  case true.false.true =>
    obtain ⟨o, hok⟩ := ho hco
    rw [hok]
    exact ⟨_, rfl⟩
  case true.true.false =>
    obtain ⟨d, hdk⟩ := hd hcd
    rw [hdk]
    exact ⟨_, rfl⟩
  case true.true.true =>
    obtain ⟨d, hdk⟩ := hd hcd
    obtain ⟨o, hok⟩ := ho hco
    rw [hdk, hok]
    exact ⟨_, rfl⟩

/-- Witness for C2 (amended): on a polygon collection whose gap pipeline
fails inside `buffer`, the run still completes: the gap failure is confined
to the gap check. -/
theorem validate_topology_ok_of_fallible_checks_ok_witness :
    (∃ r, validate_topology gapFailKernel polyState = Except.ok r) ∧
    gap_pipeline gapFailKernel (gap_polygons gapFailKernel polyState) 0 =
      Except.error "GEOSException: buffer failed" :=
  ⟨validate_topology_ok_of_fallible_checks_ok gapFailKernel polyState
      (fun _ => ⟨[], rfl⟩) (fun _ => ⟨[], rfl⟩),
   rfl⟩

end DIYTopology
